import Mathlib

/-!
Shallow embedding of `gpytorch/variational/multitask_variational_strategy.py`
(class `MultitaskVariationalStrategy`), a thin adapter that wraps a base
variational strategy and reinterprets one batch dimension of its output
distribution as the task (event) dimension.

The adapter's own code (constructor, memoized accessors, `forward`,
`kl_divergence`, `prior`, `__call__`) is translated directly from the source.
Collaborator code that is not part of this repository fragment (the
distribution library's `to_multitask` / `to_multitask_from_batch`, torch's
`Tensor.sum(dim=...)`, `Module.__call__`, and `_VariationalStrategy`'s
KL computation) is modelled from the specification, and every such
definition says so in its doc comment.
-/

set_option autoImplicit false

/-- A dense tensor in row-major (C-contiguous) layout: a shape together with
the flattened data.  Only the summation over one dimension is needed here. -/
structure Tensor where
  shape : List Nat
  data : List Int
deriving DecidableEq, Repr

/-- Product of the extents in a shape fragment. -/
def shapeProd (l : List Nat) : Nat := l.foldl (fun a b => a * b) 1

/-- Modelled from the spec: torch's `Tensor.sum(dim=d)` (the tensor library is
not part of this repository fragment).  A negative `d` is normalized by adding
the rank, the summed axis is removed from the shape, and each output entry is
the sum of the input entries along that axis (row-major indexing). -/
def Tensor.sumDim (t : Tensor) (d : Int) : Tensor :=
  let r : Nat := t.shape.length
  let i : Nat := (if d < 0 then d + (r : Int) else d).toNat
  let mid : Nat := t.shape.getD i 1
  let inner : Nat := shapeProd (t.shape.drop (i + 1))
  let outer : Nat := shapeProd (t.shape.take i)
  { shape := t.shape.take i ++ t.shape.drop (i + 1)
    data :=
      (List.range (outer * inner)).map (fun oi =>
        let o : Nat := oi / inner
        let j : Nat := oi % inner
        (List.range mid).foldl
          (fun acc m => acc + t.data.getD (o * mid * inner + m * inner + j) 0) 0) }

/-- A function distribution, abstracted to the data the adapter inspects: its
batch shape and its event shape (as in torch distributions). -/
structure FunctionDist where
  batch_shape : List Nat
  event_shape : List Nat
deriving DecidableEq, Repr

/-- Modelled from the spec: the distribution library's operation that
"reinterprets a batch dimension as a task/event dimension"
(`to_multitask_from_batch(task_dim=...)`, not part of this repository
fragment).  The batch dimension indexed by `task_dim` (negative indices count
from the end) is removed from the batch shape and its extent is appended as
the last event dimension.  An out-of-range index fails inside the library;
per the spec such errors are surfaced unmodified, modelled here as `none`. -/
def FunctionDist.to_multitask_from_batch (d : FunctionDist) (task_dim : Int) : Option FunctionDist :=
  let r : Nat := d.batch_shape.length
  let i : Int := if task_dim < 0 then task_dim + (r : Int) else task_dim
  if 0 ≤ i ∧ i < (r : Int) then
    some { batch_shape := d.batch_shape.take i.toNat ++ d.batch_shape.drop (i.toNat + 1)
           event_shape := d.event_shape ++ [d.batch_shape.getD i.toNat 0] }
  else
    none

/-- Modelled from the spec: the distribution library's operation that
"expands a task-less distribution into a multi-task one"
(`to_multitask(num_tasks=...)`, not part of this repository fragment).  The
distribution is replicated across `num_tasks` tasks, which appends the task
count as the last event dimension. -/
def FunctionDist.to_multitask (d : FunctionDist) (num_tasks : Nat) : FunctionDist :=
  { batch_shape := d.batch_shape, event_shape := d.event_shape ++ [num_tasks] }

/-- How a call of the adapter can fail: the `assert` in `forward`/`prior`
(an unconditional fatal error), or an error raised inside the distribution
library and surfaced unmodified. -/
inductive GPError where
  | assertionError
  | libraryError
deriving DecidableEq, Repr

/-- The base variational strategy, abstracted to the interface the adapter
consumes (spec, External Interfaces): a callable returning a function
distribution, a `prior(inputs)` method, the `prior_distribution` /
`variational_distribution` / `variational_params_initialized` accessors, and
a KL-divergence computation.  Because the library properties may construct a
fresh object on every access, `prior_distribution` and
`variational_distribution` are modelled as the object returned by the n-th
access; inputs are opaque tokens (`Nat`). -/
structure BaseVariationalStrategy where
  call : Nat → FunctionDist
  prior : Nat → FunctionDist
  prior_distribution : Nat → FunctionDist
  variational_distribution : Nat → FunctionDist
  variational_params_initialized : Bool
  kl_divergence : Tensor

/-- The per-instance memoization cache written by the `@cached` decorator
(`self._memoize_cache`): one slot per memoized property name. -/
structure MemoCache where
  prior_distribution_memo : Option FunctionDist
  variational_distribution_memo : Option FunctionDist
deriving DecidableEq, Repr

/-- The cache state with no attribute set / a fresh empty dict. -/
def MemoCache.empty : MemoCache := { prior_distribution_memo := none, variational_distribution_memo := none }

/-- The state of a `MultitaskVariationalStrategy` instance: the three fields
stored by `__init__`, the training-mode flag inherited from `Module`, the
memoization cache, and (model bookkeeping) how many times each memoized base
property has been computed, so that memoization is distinguishable from
recomputation. -/
structure MultitaskVariationalStrategy where
  base_variational_strategy : BaseVariationalStrategy
  num_tasks : Nat
  task_dim : Int
  training : Bool
  cache : MemoCache
  priorAccessCount : Nat
  variationalAccessCount : Nat

namespace MultitaskVariationalStrategy

/-- The default value of the `task_dim` parameter of `__init__`. -/
def defaultTaskDim : Int := -1

/-- `__init__(self, base_variational_strategy, num_tasks, task_dim=-1)`:
stores the three arguments verbatim.  `Module.__init__` (not part of this
repository fragment) initializes the instance in training mode with no
memoization cache attribute. -/
def init (base : BaseVariationalStrategy) (num_tasks : Nat) (task_dim : Int) :
    MultitaskVariationalStrategy :=
  { base_variational_strategy := base
    num_tasks := num_tasks
    task_dim := task_dim
    training := true
    cache := MemoCache.empty
    priorAccessCount := 0
    variationalAccessCount := 0 }

/-- `__init__` with the `task_dim` argument omitted: it defaults to
`defaultTaskDim`. -/
def initDefault (base : BaseVariationalStrategy) (num_tasks : Nat) :
    MultitaskVariationalStrategy :=
  init base num_tasks defaultTaskDim

/-- The `prior_distribution` property: a pass-through to
`self.base_variational_strategy.prior_distribution`, memoized by `@cached`
under the name `prior_distribution_memo`.  Returns the value together with
the updated instance state. -/
def prior_distribution (s : MultitaskVariationalStrategy) :
    FunctionDist × MultitaskVariationalStrategy :=
  match s.cache.prior_distribution_memo with
  | some d => (d, s)
  | none =>
    let d := s.base_variational_strategy.prior_distribution s.priorAccessCount
    (d, { s with
          cache := { s.cache with prior_distribution_memo := some d }
          priorAccessCount := s.priorAccessCount + 1 })

/-- The `variational_distribution` property: a pass-through to
`self.base_variational_strategy.variational_distribution`, memoized by
`@cached` under the name `variational_distribution_memo`. -/
def variational_distribution (s : MultitaskVariationalStrategy) :
    FunctionDist × MultitaskVariationalStrategy :=
  match s.cache.variational_distribution_memo with
  | some d => (d, s)
  | none =>
    let d := s.base_variational_strategy.variational_distribution s.variationalAccessCount
    (d, { s with
          cache := { s.cache with variational_distribution_memo := some d }
          variationalAccessCount := s.variationalAccessCount + 1 })

/-- The `variational_params_initialized` property: a plain (non-memoized)
pass-through to the base strategy, touching no instance state. -/
def variational_params_initialized (s : MultitaskVariationalStrategy) :
    Bool × MultitaskVariationalStrategy :=
  (s.base_variational_strategy.variational_params_initialized, s)

/-- `forward(self, inputs)`: call the base strategy on the inputs, reinterpret
batch dimension `task_dim` of the result as the task/event dimension, and
`assert function_dist.event_shape[-1] == self.num_tasks` before returning. -/
def forward (s : MultitaskVariationalStrategy) (inputs : Nat) : Except GPError FunctionDist :=
  let function_dist := s.base_variational_strategy.call inputs
  match function_dist.to_multitask_from_batch s.task_dim with
  | none => Except.error GPError.libraryError
  | some fd =>
    if fd.event_shape.getLast? = some s.num_tasks then Except.ok fd
    else Except.error GPError.assertionError

/-- Modelled from the spec: `_VariationalStrategy.kl_divergence` (the parent
class is not part of this repository fragment); per the spec the adapter's KL
computation "delegates to the base strategy's KL computation". -/
def superKlDivergence (s : MultitaskVariationalStrategy) : Tensor :=
  s.base_variational_strategy.kl_divergence

/-- `kl_divergence(self)`: `super().kl_divergence().sum(dim=-1)`. -/
def kl_divergence (s : MultitaskVariationalStrategy) : Tensor :=
  (superKlDivergence s).sumDim (-1)

/-- `prior(self, inputs)`: compute the base strategy's prior on the inputs;
if `task_dim > 0 and task_dim > len(batch_shape) or task_dim < 0 and
task_dim + len(batch_shape) < 0` (Python precedence: `and` binds tighter
than `or`), expand it directly with `to_multitask`; otherwise reinterpret
batch dimension `task_dim` as the task dimension, with the same assertion
as `forward`. -/
def prior (s : MultitaskVariationalStrategy) (inputs : Nat) : Except GPError FunctionDist :=
  let function_dist := s.base_variational_strategy.prior inputs
  if (s.task_dim > 0 ∧ s.task_dim > (function_dist.batch_shape.length : Int))
      ∨ (s.task_dim < 0 ∧ s.task_dim + (function_dist.batch_shape.length : Int) < 0) then
    Except.ok (function_dist.to_multitask s.num_tasks)
  else
    match function_dist.to_multitask_from_batch s.task_dim with
    | none => Except.error GPError.libraryError
    | some fd =>
      if fd.event_shape.getLast? = some s.num_tasks then Except.ok fd
      else Except.error GPError.assertionError

/-- Modelled from the spec: `Module.__call__`, the "parent invocation
machinery" (not part of this repository fragment), which dispatches to the
module's `forward`. -/
def moduleCall (s : MultitaskVariationalStrategy) (x : Nat) :
    Except GPError FunctionDist × MultitaskVariationalStrategy :=
  (forward s x, s)

/-- `__call__(self, x)`: while in training mode, delete the previously cached
items (`delattr` of `_memoize_cache` followed by reinitializing it to an
empty dict; when the attribute is absent the cache is already empty), then
delegate to `Module.__call__`. -/
def call (s : MultitaskVariationalStrategy) (x : Nat) :
    Except GPError FunctionDist × MultitaskVariationalStrategy :=
  let s' := if s.training then { s with cache := MemoCache.empty } else s
  moduleCall s' x

end MultitaskVariationalStrategy

/-! ## Helper lemmas -/

/-- The branch condition of `prior`, as written in the source, holds exactly
when the magnitude of the task-dimension index exceeds the batch-shape rank. -/
theorem prior_branch_iff (td : Int) (r : Nat) :
    ((td > 0 ∧ td > (r : Int)) ∨ (td < 0 ∧ td + (r : Int) < 0)) ↔ td.natAbs > r := by
  omega

/-- Formalisation of the spec's branch description for `prior`: the configured
task dimension "lies outside the batch distribution's current batch-shape
rank", read as the magnitude of the index exceeding the rank (a positive index
beyond the rank, or a negative index reaching past the first batch dimension). -/
def taskDimOutsideRank (task_dim : Int) (rank : Nat) : Prop :=
  task_dim.natAbs > rank

instance (td : Int) (r : Nat) : Decidable (taskDimOutsideRank td r) :=
  inferInstanceAs (Decidable (td.natAbs > r))

/-- Summation over a dimension only depends on the normalized axis index. -/
theorem Tensor.sumDim_congr_idx (t : Tensor) (d1 d2 : Int)
    (h : (if d1 < 0 then d1 + (t.shape.length : Int) else d1).toNat =
         (if d2 < 0 then d2 + (t.shape.length : Int) else d2).toNat) :
    t.sumDim d1 = t.sumDim d2 := by
  simp only [Tensor.sumDim, h]

/-! ## Concrete instances used by witnesses and counterexamples -/

/-- A throwaway distribution used to fill irrelevant fields. -/
def dUnit : FunctionDist := { batch_shape := [], event_shape := [1] }

/-- A concrete base strategy: batch shape `[2, 3]` outputs, a rank-2 KL
tensor, and base properties that return a distinguishable fresh object on
every access. -/
def baseW : BaseVariationalStrategy :=
  { call := fun _ => { batch_shape := [2, 3], event_shape := [4] }
    prior := fun _ => { batch_shape := [2, 3], event_shape := [4] }
    prior_distribution := fun n => { batch_shape := [n], event_shape := [1] }
    variational_distribution := fun n => { batch_shape := [n + 7], event_shape := [1] }
    variational_params_initialized := true
    kl_divergence := { shape := [2, 2], data := [1, 2, 3, 4] } }

/-- Instance with `task_dim = 0` and a rank-2 KL tensor whose two axis sums
differ, refuting the claim that `kl_divergence` sums over `task_dim`. -/
def sC1 : MultitaskVariationalStrategy :=
  { base_variational_strategy := baseW, num_tasks := 2, task_dim := 0,
    training := false, cache := MemoCache.empty,
    priorAccessCount := 0, variationalAccessCount := 0 }

/-- Instance with the default `task_dim = -1`, where the last axis is the
task axis. -/
def sC1w : MultitaskVariationalStrategy :=
  { base_variational_strategy := baseW, num_tasks := 2, task_dim := -1,
    training := false, cache := MemoCache.empty,
    priorAccessCount := 0, variationalAccessCount := 0 }

/-! ## Claims -/

/-- C1 counterexample: with `task_dim = 0` and a rank-2 base KL tensor
`[[1, 2], [3, 4]]`, `kl_divergence` returns the sum over the last axis
(`[3, 7]`), not the sum over the configured task dimension (`[4, 6]`), so
`kl_divergence` does not reduce over the task dimension for every configured
task dimension. -/
theorem claim_C1_counterexample :
    MultitaskVariationalStrategy.kl_divergence sC1 ≠
      Tensor.sumDim sC1.base_variational_strategy.kl_divergence sC1.task_dim := by
  decide

/-- C1 (amended): `kl_divergence` returns the base strategy's KL divergence
summed over the last dimension (`dim=-1`); this coincides with the sum over
the configured task dimension exactly when `task_dim` designates the last
axis (`-1`, or `rank - 1` for a tensor of positive rank). -/
theorem claim_C1_kl_sums_last_dim (s : MultitaskVariationalStrategy) :
    MultitaskVariationalStrategy.kl_divergence s =
      Tensor.sumDim s.base_variational_strategy.kl_divergence (-1) ∧
    (s.task_dim = -1 ∨
        (0 < s.base_variational_strategy.kl_divergence.shape.length ∧
          s.task_dim = (s.base_variational_strategy.kl_divergence.shape.length : Int) - 1) →
      MultitaskVariationalStrategy.kl_divergence s =
        Tensor.sumDim s.base_variational_strategy.kl_divergence s.task_dim) := by
  refine ⟨rfl, fun h => ?_⟩
  rcases h with h | ⟨hr, h⟩
  · rw [h]; rfl
  · show Tensor.sumDim s.base_variational_strategy.kl_divergence (-1) = _
    exact Tensor.sumDim_congr_idx _ _ _ (by rw [h]; omega)

/-- C1 witness: at the default `task_dim = -1`, `kl_divergence` equals the
base KL summed over the task dimension. -/
theorem claim_C1_witness :
    (sC1w.task_dim = -1 ∨
        (0 < sC1w.base_variational_strategy.kl_divergence.shape.length ∧
          sC1w.task_dim = (sC1w.base_variational_strategy.kl_divergence.shape.length : Int) - 1)) ∧
    MultitaskVariationalStrategy.kl_divergence sC1w =
      Tensor.sumDim sC1w.base_variational_strategy.kl_divergence sC1w.task_dim :=
  ⟨Or.inl rfl, (claim_C1_kl_sums_last_dim sC1w).2 (Or.inl rfl)⟩

/-- C2: `prior(inputs)` branches on whether the configured task dimension
lies outside the base prior distribution's batch-shape rank: if outside, it
returns the distribution expanded directly with `to_multitask` at the
configured task count; otherwise it behaves exactly like `forward` run on the
prior distribution (reinterpreting batch dimension `task_dim` as the task
dimension, with the same trailing-event-dimension assertion). -/
theorem claim_C2_prior_branches (s : MultitaskVariationalStrategy) (inputs : Nat) :
    (taskDimOutsideRank s.task_dim
        (s.base_variational_strategy.prior inputs).batch_shape.length →
      MultitaskVariationalStrategy.prior s inputs =
        Except.ok ((s.base_variational_strategy.prior inputs).to_multitask s.num_tasks)) ∧
    (¬ taskDimOutsideRank s.task_dim
        (s.base_variational_strategy.prior inputs).batch_shape.length →
      MultitaskVariationalStrategy.prior s inputs =
        MultitaskVariationalStrategy.forward
          { s with base_variational_strategy :=
              { s.base_variational_strategy with call := s.base_variational_strategy.prior } }
          inputs) := by
  constructor <;> intro h
  · unfold MultitaskVariationalStrategy.prior
    rw [if_pos ((prior_branch_iff _ _).mpr h)]
  · unfold MultitaskVariationalStrategy.prior MultitaskVariationalStrategy.forward
    rw [if_neg (fun hc => h ((prior_branch_iff _ _).mp hc))]

/-- Instance whose `task_dim = 5` lies outside the rank-2 batch shape of the
base prior. -/
def sC2a : MultitaskVariationalStrategy :=
  { base_variational_strategy := baseW, num_tasks := 4, task_dim := 5,
    training := false, cache := MemoCache.empty,
    priorAccessCount := 0, variationalAccessCount := 0 }

/-- Instance whose `task_dim = -1` lies inside the rank-2 batch shape of the
base prior (the second batch dimension, extent 3). -/
def sC2b : MultitaskVariationalStrategy :=
  { base_variational_strategy := baseW, num_tasks := 3, task_dim := -1,
    training := false, cache := MemoCache.empty,
    priorAccessCount := 0, variationalAccessCount := 0 }

/-- C2 witness: both branches of `prior` exercised at concrete instances — an
outside-rank task dimension expands with `to_multitask`, an inside-rank one
behaves like `forward` on the prior distribution. -/
theorem claim_C2_witness :
    (taskDimOutsideRank sC2a.task_dim
        (sC2a.base_variational_strategy.prior 0).batch_shape.length ∧
      MultitaskVariationalStrategy.prior sC2a 0 =
        Except.ok ((sC2a.base_variational_strategy.prior 0).to_multitask sC2a.num_tasks)) ∧
    (¬ taskDimOutsideRank sC2b.task_dim
        (sC2b.base_variational_strategy.prior 0).batch_shape.length ∧
      MultitaskVariationalStrategy.prior sC2b 0 =
        MultitaskVariationalStrategy.forward
          { sC2b with base_variational_strategy :=
              { sC2b.base_variational_strategy with
                  call := sC2b.base_variational_strategy.prior } }
          0) :=
  ⟨⟨by decide, (claim_C2_prior_branches sC2a 0).1 (by decide)⟩,
   ⟨by decide, (claim_C2_prior_branches sC2b 0).2 (by decide)⟩⟩

/-- C3: `forward` returns (only) the base strategy's output with batch
dimension `task_dim` reinterpreted as the task/event dimension, and any
returned distribution has final event dimension `num_tasks`; when the
reinterpreted distribution's final event dimension differs from `num_tasks`,
`forward` raises the assertion error instead of returning. -/
theorem claim_C3_forward_asserts (s : MultitaskVariationalStrategy) (inputs : Nat) :
    (∀ d, MultitaskVariationalStrategy.forward s inputs = Except.ok d →
      (s.base_variational_strategy.call inputs).to_multitask_from_batch s.task_dim = some d ∧
        d.event_shape.getLast? = some s.num_tasks) ∧
    (∀ d,
      (s.base_variational_strategy.call inputs).to_multitask_from_batch s.task_dim = some d →
      d.event_shape.getLast? ≠ some s.num_tasks →
      MultitaskVariationalStrategy.forward s inputs = Except.error GPError.assertionError) := by
  constructor
  · intro d hd
    simp only [MultitaskVariationalStrategy.forward] at hd
    split at hd
    · exact Except.noConfusion hd
    · next fd hsome =>
        split at hd
        · next hev => cases hd; exact ⟨hsome, hev⟩
        · exact Except.noConfusion hd
  · intro d hconv hev
    simp only [MultitaskVariationalStrategy.forward]
    rw [hconv]
    show (if d.event_shape.getLast? = some s.num_tasks then Except.ok d
          else Except.error GPError.assertionError) = Except.error GPError.assertionError
    rw [if_neg hev]

/-- The function distribution produced by `baseW`'s callable after
reinterpreting its last batch dimension as the task dimension. -/
def dC3 : FunctionDist := { batch_shape := [2], event_shape := [4, 3] }

/-- Instance whose `num_tasks = 3` matches the extent of the reinterpreted
batch dimension. -/
def sC3a : MultitaskVariationalStrategy :=
  { base_variational_strategy := baseW, num_tasks := 3, task_dim := -1,
    training := false, cache := MemoCache.empty,
    priorAccessCount := 0, variationalAccessCount := 0 }

/-- Instance whose `num_tasks = 7` does not match the extent of the
reinterpreted batch dimension. -/
def sC3b : MultitaskVariationalStrategy :=
  { base_variational_strategy := baseW, num_tasks := 7, task_dim := -1,
    training := false, cache := MemoCache.empty,
    priorAccessCount := 0, variationalAccessCount := 0 }

/-- C3 witness: at a matching task count `forward` returns the reinterpreted
distribution with final event dimension `num_tasks`; at a mismatched task
count it raises the assertion error. -/
theorem claim_C3_witness :
    ((sC3a.base_variational_strategy.call 0).to_multitask_from_batch sC3a.task_dim =
        some dC3 ∧
      dC3.event_shape.getLast? = some sC3a.num_tasks) ∧
    MultitaskVariationalStrategy.forward sC3b 0 = Except.error GPError.assertionError :=
  ⟨(claim_C3_forward_asserts sC3a 0).1 dC3 rfl,
   (claim_C3_forward_asserts sC3b 0).2 dC3 rfl (by decide)⟩

/-- C4: a `__call__` made in training mode reinitializes the per-instance
memoization cache to empty and then delegates to the parent invocation
machinery on the instance with the cleared cache, so the subsequent
computation cannot reuse a previously cached distribution. -/
theorem claim_C4_call_clears_cache (s : MultitaskVariationalStrategy) (x : Nat)
    (h : s.training = true) :
    (MultitaskVariationalStrategy.call s x).2.cache = MemoCache.empty ∧
    MultitaskVariationalStrategy.call s x =
      MultitaskVariationalStrategy.moduleCall { s with cache := MemoCache.empty } x := by
  have hcall : MultitaskVariationalStrategy.call s x =
      MultitaskVariationalStrategy.moduleCall { s with cache := MemoCache.empty } x := by
    unfold MultitaskVariationalStrategy.call
    rw [if_pos h]
  exact ⟨by rw [hcall]; rfl, hcall⟩

/-- Instance in training mode with both memoization slots populated by stale
distributions. -/
def sC4 : MultitaskVariationalStrategy :=
  { base_variational_strategy := baseW, num_tasks := 3, task_dim := -1,
    training := true,
    cache := { prior_distribution_memo := some dUnit,
               variational_distribution_memo := some dUnit },
    priorAccessCount := 1, variationalAccessCount := 1 }

/-- C4 witness: calling the populated training-mode instance discards the
cached distributions and delegates on the emptied cache. -/
theorem claim_C4_witness :
    sC4.training = true ∧
    ((MultitaskVariationalStrategy.call sC4 0).2.cache = MemoCache.empty ∧
      MultitaskVariationalStrategy.call sC4 0 =
        MultitaskVariationalStrategy.moduleCall { sC4 with cache := MemoCache.empty } 0) :=
  ⟨rfl, claim_C4_call_clears_cache sC4 0 rfl⟩

/-- C5: in evaluation mode, a second access to `prior_distribution`
(respectively `variational_distribution`) without an intervening
training-mode call returns exactly the first access's result and leaves the
state unchanged: the memoized object is reused, with no recomputation from
the base strategy. -/
theorem claim_C5_accessors_memoized (s : MultitaskVariationalStrategy)
    (_h : s.training = false) :
    MultitaskVariationalStrategy.prior_distribution
        (MultitaskVariationalStrategy.prior_distribution s).2 =
      MultitaskVariationalStrategy.prior_distribution s ∧
    MultitaskVariationalStrategy.variational_distribution
        (MultitaskVariationalStrategy.variational_distribution s).2 =
      MultitaskVariationalStrategy.variational_distribution s := by
  constructor
  · cases hm : s.cache.prior_distribution_memo with
    | some d => simp [MultitaskVariationalStrategy.prior_distribution, hm]
    | none => simp [MultitaskVariationalStrategy.prior_distribution, hm]
  · cases hm : s.cache.variational_distribution_memo with
    | some d => simp [MultitaskVariationalStrategy.variational_distribution, hm]
    | none => simp [MultitaskVariationalStrategy.variational_distribution, hm]

/-- Instance in evaluation mode with an empty cache. -/
def sC5 : MultitaskVariationalStrategy :=
  { base_variational_strategy := baseW, num_tasks := 3, task_dim := -1,
    training := false, cache := MemoCache.empty,
    priorAccessCount := 0, variationalAccessCount := 0 }

/-- C5 witness: on a concrete evaluation-mode instance, the second access to
each accessor coincides with the first. -/
theorem claim_C5_witness :
    sC5.training = false ∧
    (MultitaskVariationalStrategy.prior_distribution
        (MultitaskVariationalStrategy.prior_distribution sC5).2 =
      MultitaskVariationalStrategy.prior_distribution sC5 ∧
    MultitaskVariationalStrategy.variational_distribution
        (MultitaskVariationalStrategy.variational_distribution sC5).2 =
      MultitaskVariationalStrategy.variational_distribution sC5) :=
  ⟨rfl, claim_C5_accessors_memoized sC5 rfl⟩

/-- C6: on a first (uncached) access, `prior_distribution` returns exactly
the base strategy's `prior_distribution`, and `variational_distribution`
returns exactly the base strategy's `variational_distribution`, with no
transformation applied. -/
theorem claim_C6_accessors_pass_through (s : MultitaskVariationalStrategy) :
    (s.cache.prior_distribution_memo = none →
      (MultitaskVariationalStrategy.prior_distribution s).1 =
        s.base_variational_strategy.prior_distribution s.priorAccessCount) ∧
    (s.cache.variational_distribution_memo = none →
      (MultitaskVariationalStrategy.variational_distribution s).1 =
        s.base_variational_strategy.variational_distribution s.variationalAccessCount) := by
  constructor <;> intro h
  · simp [MultitaskVariationalStrategy.prior_distribution, h]
  · simp [MultitaskVariationalStrategy.variational_distribution, h]

/-- C6 witness: on a concrete uncached instance, both accessors return the
base strategy's current distribution object unmodified. -/
theorem claim_C6_witness :
    sC5.cache.prior_distribution_memo = none ∧
    (MultitaskVariationalStrategy.prior_distribution sC5).1 =
      sC5.base_variational_strategy.prior_distribution sC5.priorAccessCount ∧
    sC5.cache.variational_distribution_memo = none ∧
    (MultitaskVariationalStrategy.variational_distribution sC5).1 =
      sC5.base_variational_strategy.variational_distribution sC5.variationalAccessCount :=
  ⟨rfl, (claim_C6_accessors_pass_through sC5).1 rfl, rfl,
   (claim_C6_accessors_pass_through sC5).2 rfl⟩

/-- C7: `__init__` stores the base strategy, the task count, and the
task-dimension index verbatim (it is a total function: no validation is
performed on any argument), and omitting the task-dimension argument defaults
it to the last dimension, index `-1`. -/
theorem claim_C7_constructor_stores_verbatim (base : BaseVariationalStrategy)
    (num_tasks : Nat) (task_dim : Int) :
    (MultitaskVariationalStrategy.init base num_tasks task_dim).base_variational_strategy =
        base ∧
    (MultitaskVariationalStrategy.init base num_tasks task_dim).num_tasks = num_tasks ∧
    (MultitaskVariationalStrategy.init base num_tasks task_dim).task_dim = task_dim ∧
    MultitaskVariationalStrategy.initDefault base num_tasks =
      MultitaskVariationalStrategy.init base num_tasks (-1) :=
  ⟨rfl, rfl, rfl, rfl⟩

/-- C8: `kl_divergence` sums the base strategy's KL tensor over the last
dimension (`dim=-1`) irrespective of the configured `task_dim`: changing the
instance's task dimension to any value leaves the result unchanged and equal
to the last-axis sum. -/
theorem claim_C8_kl_ignores_task_dim (s : MultitaskVariationalStrategy) (t : Int) :
    MultitaskVariationalStrategy.kl_divergence { s with task_dim := t } =
      Tensor.sumDim s.base_variational_strategy.kl_divergence (-1) ∧
    MultitaskVariationalStrategy.kl_divergence { s with task_dim := t } =
      MultitaskVariationalStrategy.kl_divergence s :=
  ⟨rfl, rfl⟩

/-- C9: the expand branch of `prior` is never taken when `task_dim = 0` (even
on an empty, rank-0 batch shape), and for positive `task_dim` it is taken
only when `task_dim` strictly exceeds the batch-shape rank: whenever
`task_dim = 0`, or `0 < task_dim ≤ rank` (including `task_dim = rank`, one
past the last valid index), `prior` takes the batch-reinterpretation branch,
behaving like `forward` on the prior distribution. -/
theorem claim_C9_prior_branch_edges (s : MultitaskVariationalStrategy) (inputs : Nat)
    (h : s.task_dim = 0 ∨
      (0 < s.task_dim ∧
        s.task_dim ≤ ((s.base_variational_strategy.prior inputs).batch_shape.length : Int))) :
    MultitaskVariationalStrategy.prior s inputs =
      MultitaskVariationalStrategy.forward
        { s with base_variational_strategy :=
            { s.base_variational_strategy with call := s.base_variational_strategy.prior } }
        inputs := by
  have hc : ¬ ((s.task_dim > 0 ∧
        s.task_dim > ((s.base_variational_strategy.prior inputs).batch_shape.length : Int))
      ∨ (s.task_dim < 0 ∧
        s.task_dim + ((s.base_variational_strategy.prior inputs).batch_shape.length : Int) < 0)) := by
    omega
  unfold MultitaskVariationalStrategy.prior MultitaskVariationalStrategy.forward
  rw [if_neg hc]

/-- Instance with `task_dim = 0` over a base prior with an empty (rank-0)
batch shape. -/
def sC9 : MultitaskVariationalStrategy :=
  { base_variational_strategy :=
      { baseW with prior := fun _ => { batch_shape := [], event_shape := [3] } }
    num_tasks := 3, task_dim := 0,
    training := false, cache := MemoCache.empty,
    priorAccessCount := 0, variationalAccessCount := 0 }

/-- C9 witness: with `task_dim = 0` and a rank-0 batch shape, `prior` still
takes the batch-reinterpretation branch. -/
theorem claim_C9_witness :
    (sC9.task_dim = 0 ∨
      (0 < sC9.task_dim ∧
        sC9.task_dim ≤ ((sC9.base_variational_strategy.prior 0).batch_shape.length : Int))) ∧
    MultitaskVariationalStrategy.prior sC9 0 =
      MultitaskVariationalStrategy.forward
        { sC9 with base_variational_strategy :=
            { sC9.base_variational_strategy with call := sC9.base_variational_strategy.prior } }
        0 :=
  ⟨Or.inl rfl, claim_C9_prior_branch_edges sC9 0 (Or.inl rfl)⟩

/-- C10: `variational_params_initialized` is a non-memoized pure
pass-through: every access returns the base strategy's current value — for
any cache contents and either training mode — and leaves the instance state
untouched. -/
theorem claim_C10_vpi_pass_through (s : MultitaskVariationalStrategy)
    (c : MemoCache) (t : Bool) :
    (MultitaskVariationalStrategy.variational_params_initialized
        { s with cache := c, training := t }).1 =
      s.base_variational_strategy.variational_params_initialized ∧
    MultitaskVariationalStrategy.variational_params_initialized s =
      (s.base_variational_strategy.variational_params_initialized, s) :=
  ⟨rfl, rfl⟩
